import Mathlib

/-!
Shallow embedding of the Amazon-Seller-Central override layer
(`amazon_override/overrides/amazon_sp_api.py` and
`amazon_override/overrides/amazon_sp_api_settings.py`).

Python values decoded from JSON are modelled by the inductive `Json`
(Python `None` is `Json.null`).  The network is modelled as an oracle: each
operation receives the `HttpResponse` the wire would produce, and returns,
besides its result and the updated instance, the list of `HttpRequest`s it
emitted, so that "performs no network call" is the emitted list being empty.
Python exceptions are modelled with `Except PyError`.
-/

namespace AmazonSPAPI

/-- A Python value decoded from JSON (`response.json()` output); `null` also
stands for Python `None`. -/
inductive Json where
  | null
  | bool (b : Bool)
  | num (n : Int)
  | str (s : String)
  | arr (elems : List Json)
  | obj (fields : List (String × Json))

/-- Python truthiness (`if self._access_token:`) on a decoded JSON value. -/
def Json.truthy : Json → Bool
  | .null => false
  | .bool b => b
  | .num n => n != 0
  | .str s => !s.isEmpty
  | .arr elems => !elems.isEmpty
  | .obj fields => !fields.isEmpty

/-- Python `d.get(key)` : `none` models the `AttributeError` raised when the
receiver is not a dict; on a dict, an absent key yields Python `None`
(`Json.null`). -/
def Json.dictGet : Json → String → Option Json
  | .obj fields, key =>
      some (((fields.find? (fun p => p.1 == key)).map Prod.snd).getD Json.null)
  | _, _ => none

/-- Exceptions escaping the embedded code.  `SPAPIError` carries the two
keyword arguments of the Python `SPAPIError(error=..., error_description=...)`
constructor; `jsonDecodeError` models `response.json()` failing on a
non-JSON body; `attributeError` models `.get` on a non-dict;
`marketplaceLookupError` models the external lookup utility failing on an
unrecognized country code. -/
inductive PyError where
  | SPAPIError (error : Json) (error_description : Json)
  | jsonDecodeError
  | attributeError
  | marketplaceLookupError (country_code : String)

/-- An HTTP response as seen by the client: the status code, the raw body
text (`response.text`) and the body parsed as JSON (`response.json()`),
`none` when the body is not valid JSON. -/
structure HttpResponse where
  status_code : Nat
  text : String
  jsonBody : Option Json

/-- An HTTP request emitted by the client.  `formData` is the form-encoded
body (`data=` in `requests.post`), `jsonData` the JSON body (`json=` in
`requests.request`). -/
structure HttpRequest where
  method : String
  url : String
  params : Option (List (String × Json))
  formData : Option (List (String × String))
  jsonData : Option (List (String × Json))
  headers : List (String × Json)

/-- The state of an `SPAPI` instance after construction.  `base_uri` makes
the class attribute `BASE_URI` of the dynamic class explicit; `_access_token`
is the cached token (`Json.null` models Python `None`, the initial state). -/
structure SPAPIInstance where
  client_id : String
  client_secret : String
  refresh_token : String
  country_code : String
  iam_arn : Json
  aws_access_key : Json
  aws_secret_key : Json
  region : String
  endpoint : String
  marketplace_id : String
  base_uri : String
  _access_token : Json

/-- The fields of `SPAPIInstance` other than the legacy credential triple
(`iam_arn`, `aws_access_key`, `aws_secret_key`); used to state that the
legacy triple never influences request behavior. -/
structure SPAPICore where
  client_id : String
  client_secret : String
  refresh_token : String
  country_code : String
  region : String
  endpoint : String
  marketplace_id : String
  base_uri : String
  _access_token : Json

/-- Projection of an instance onto its non-legacy fields. -/
def SPAPIInstance.core (s : SPAPIInstance) : SPAPICore :=
  { client_id := s.client_id
    client_secret := s.client_secret
    refresh_token := s.refresh_token
    country_code := s.country_code
    region := s.region
    endpoint := s.endpoint
    marketplace_id := s.marketplace_id
    base_uri := s.base_uri
    _access_token := s._access_token }

/-- Result of running one client operation: the returned value or the raised
exception, the instance after the call, and the HTTP requests emitted. -/
structure CallResult (α : Type) where
  outcome : Except PyError α
  self : SPAPIInstance
  requests : List HttpRequest

namespace SPAPI

def AUTH_URL : String := "https://api.amazon.com/auth/o2/token"

def BASE_URI : String := "/"

/-- `SPAPI.get_access_token`.  `resp` is the response the token endpoint
would return if contacted; when the cached token is truthy no request is
emitted and `resp` is unused. -/
def get_access_token (self : SPAPIInstance) (resp : HttpResponse) :
    CallResult Json :=
  if self._access_token.truthy then
    { outcome := Except.ok self._access_token, self := self, requests := [] }
  else
    let req : HttpRequest :=
      { method := "POST"
        url := AUTH_URL
        params := none
        formData := some
          [("grant_type", "refresh_token"),
           ("client_id", self.client_id),
           ("client_secret", self.client_secret),
           ("refresh_token", self.refresh_token)]
        jsonData := none
        headers := [("Content-Type",
                     Json.str "application/x-www-form-urlencoded")] }
    match resp.jsonBody with
    | none =>
        { outcome := Except.error PyError.jsonDecodeError, self := self,
          requests := [req] }
    | some result =>
        if resp.status_code == 200 then
          match result.dictGet "access_token" with
          | none =>
              { outcome := Except.error PyError.attributeError, self := self,
                requests := [req] }
          | some tok =>
              { outcome := Except.ok tok,
                self := { self with _access_token := tok },
                requests := [req] }
        else
          match result.dictGet "error", result.dictGet "error_description" with
          | some e, some d =>
              { outcome := Except.error (PyError.SPAPIError e d), self := self,
                requests := [req] }
          | _, _ =>
              { outcome := Except.error PyError.attributeError, self := self,
                requests := [req] }

/-- `SPAPI.get_headers`: builds the three request headers, obtaining the
token via `get_access_token` (whose failure propagates). -/
def get_headers (self : SPAPIInstance) (tokenResp : HttpResponse) :
    CallResult (List (String × Json)) :=
  match get_access_token self tokenResp with
  | { outcome := Except.ok tok, self := self', requests := reqs } =>
      { outcome := Except.ok
          [("x-amz-access-token", tok),
           ("User-Agent", Json.str "python-amazon-mws/0.0.1 (Language=Python)"),
           ("Content-Type", Json.str "application/json")],
        self := self', requests := reqs }
  | { outcome := Except.error e, self := self', requests := reqs } =>
      { outcome := Except.error e, self := self', requests := reqs }

end SPAPI

namespace Util

/-- Modelled from the spec: `Util.remove_empty` belongs to the upstream
`ecommerce_integrations` library, absent from this repository; the spec
describes it as "a value-stripping utility removing empty/null entries from
a mapping".  An entry is removed when its value is absent (`null`) or
empty (empty string, array or object). -/
def remove_empty (d : List (String × Json)) : List (String × Json) :=
  d.filter (fun p =>
    match p.2 with
    | Json.null => false
    | Json.str s => !s.isEmpty
    | Json.arr elems => !elems.isEmpty
    | Json.obj fields => !fields.isEmpty
    | _ => true)

/-- A marketplace record as returned by the external lookup. -/
structure MarketplaceInfo where
  region : String
  endpoint : String
  marketplace_id : String

/-- Modelled from the spec: `Util.get_marketplace_data` belongs to the
upstream `ecommerce_integrations` library, absent from this repository; the
spec describes it as "a marketplace lookup function mapping country_code →
(region, endpoint, marketplace_id)" over a lookup table, failing for
unrecognized country codes.  The table is an explicit parameter. -/
def get_marketplace_data (table : List (String × MarketplaceInfo))
    (country_code : String) : Except PyError MarketplaceInfo :=
  match table.find? (fun p => p.1 == country_code) with
  | some p => Except.ok p.2
  | none => Except.error (PyError.marketplaceLookupError country_code)

end Util

namespace SPAPI

/-- `SPAPI.__init__`: stores the OAuth credentials, keeps the legacy triple
only when all three parts are truthy, resolves the marketplace data (whose
failure propagates) and initializes the token cache to `None`.  `base_uri`
is the `BASE_URI` class attribute of the concrete class being constructed.
No HTTP request is emitted (second component). -/
def init (table : List (String × Util.MarketplaceInfo))
    (client_id client_secret refresh_token : String)
    (country_code : String := "US")
    (iam_arn : Json := Json.null) (aws_access_key : Json := Json.null)
    (aws_secret_key : Json := Json.null)
    (base_uri : String := BASE_URI) :
    Except PyError SPAPIInstance × List HttpRequest :=
  let keepLegacy :=
    iam_arn.truthy && aws_access_key.truthy && aws_secret_key.truthy
  match Util.get_marketplace_data table country_code with
  | Except.error e => (Except.error e, [])
  | Except.ok mi =>
      (Except.ok
        { client_id := client_id
          client_secret := client_secret
          refresh_token := refresh_token
          country_code := country_code
          iam_arn := if keepLegacy then iam_arn else Json.null
          aws_access_key := if keepLegacy then aws_access_key else Json.null
          aws_secret_key := if keepLegacy then aws_secret_key else Json.null
          region := mi.region
          endpoint := mi.endpoint
          marketplace_id := mi.marketplace_id
          base_uri := base_uri
          _access_token := Json.null }, [])

/-- `SPAPI.make_request`: strips empty entries from `params` and `data` when
they are dicts, builds the URL, obtains headers (token failure propagates,
in which case no resource request is emitted), sends the request, raises
`SPAPIError` on status ≥ 400 and otherwise returns the parsed JSON body.
`tokenResp` is the oracle for the token endpoint, `apiResp` for the
resource endpoint. -/
def make_request (self : SPAPIInstance) (method : String := "GET")
    (append_to_base_uri : String := "")
    (params : Option (List (String × Json)) := none)
    (data : Option (List (String × Json)) := none)
    (tokenResp apiResp : HttpResponse) :
    CallResult Json :=
  let params := params.map Util.remove_empty
  let data := data.map Util.remove_empty
  let url := self.endpoint ++ self.base_uri ++ append_to_base_uri
  match get_headers self tokenResp with
  | { outcome := Except.error e, self := self', requests := reqs } =>
      { outcome := Except.error e, self := self', requests := reqs }
  | { outcome := Except.ok hs, self := self', requests := reqs } =>
      let req : HttpRequest :=
        { method := method, url := url, params := params,
          formData := none, jsonData := data, headers := hs }
      if apiResp.status_code ≥ 400 then
        { outcome := Except.error (PyError.SPAPIError
            (Json.str ("HTTP " ++ toString apiResp.status_code))
            (Json.str apiResp.text)),
          self := self', requests := reqs ++ [req] }
      else
        match apiResp.jsonBody with
        | none =>
            { outcome := Except.error PyError.jsonDecodeError, self := self',
              requests := reqs ++ [req] }
        | some j =>
            { outcome := Except.ok j, self := self',
              requests := reqs ++ [req] }

end SPAPI

namespace Finances

def BASE_URI : String := "/finances/v0/"

/-- Constructing a `Finances` client: `SPAPI.__init__` with the `Finances`
class attribute `BASE_URI`. -/
def init (table : List (String × Util.MarketplaceInfo))
    (client_id client_secret refresh_token : String)
    (country_code : String := "US")
    (iam_arn : Json := Json.null) (aws_access_key : Json := Json.null)
    (aws_secret_key : Json := Json.null) :
    Except PyError SPAPIInstance × List HttpRequest :=
  SPAPI.init table client_id client_secret refresh_token country_code
    iam_arn aws_access_key aws_secret_key BASE_URI

end Finances

namespace Orders

def BASE_URI : String := "/orders/v0/orders"

/-- Constructing an `Orders` client: `SPAPI.__init__` with the `Orders`
class attribute `BASE_URI`. -/
def init (table : List (String × Util.MarketplaceInfo))
    (client_id client_secret refresh_token : String)
    (country_code : String := "US")
    (iam_arn : Json := Json.null) (aws_access_key : Json := Json.null)
    (aws_secret_key : Json := Json.null) :
    Except PyError SPAPIInstance × List HttpRequest :=
  SPAPI.init table client_id client_secret refresh_token country_code
    iam_arn aws_access_key aws_secret_key BASE_URI

end Orders

namespace CatalogItems

def BASE_URI : String := "/catalog/v0"

/-- Constructing a `CatalogItems` client: `SPAPI.__init__` with the
`CatalogItems` class attribute `BASE_URI`. -/
def init (table : List (String × Util.MarketplaceInfo))
    (client_id client_secret refresh_token : String)
    (country_code : String := "US")
    (iam_arn : Json := Json.null) (aws_access_key : Json := Json.null)
    (aws_secret_key : Json := Json.null) :
    Except PyError SPAPIInstance × List HttpRequest :=
  SPAPI.init table client_id client_secret refresh_token country_code
    iam_arn aws_access_key aws_secret_key BASE_URI

end CatalogItems

/-- The fields of the `Amazon SP API Settings` document that
`AmazonSPAPISettings.validate` reads or writes.  `max_retry_limit` is an
integer field; `none` models an unset (Python `None`) value. -/
structure SettingsDoc where
  is_active : Int
  enable_sync : Int
  max_retry_limit : Option Int

/-- Python truthiness of the `max_retry_limit` field
(`if not self.max_retry_limit:`): unset and zero are falsy. -/
def SettingsDoc.retryTruthy (doc : SettingsDoc) : Bool :=
  match doc.max_retry_limit with
  | none => false
  | some n => n != 0

/-- The ways `AmazonSPAPISettings.validate` can raise. -/
inductive ValidateError where
  | priorCheck
  | credentialCheck
  | retryLimitTooHigh

namespace AmazonSPAPISettings

/-- `AmazonSPAPISettings.validate`.  The inherited
`validate_amazon_fields_map`/`validate_after_date` checks and the
credential validation (`amazon_repository.validate_amazon_sp_api_credentials`,
a repository module absent from the sources) are abstracted as boolean
oracles saying whether they pass; `setup_custom_fields` touches no field of
the document and is omitted.  The `max_retry_limit` logic is modelled
verbatim: falsy → set to 1; truthy and `> 5` → throw; otherwise kept. -/
def validate (priorChecksOk credentialsOk : Bool) (doc : SettingsDoc) :
    Except ValidateError SettingsDoc :=
  if !priorChecksOk then Except.error ValidateError.priorCheck
  else
    match
      (if doc.is_active == 1 then
        (if credentialsOk then Except.ok doc
         else Except.error ValidateError.credentialCheck)
       else Except.ok { doc with enable_sync := 0 }) with
    | Except.error e => Except.error e
    | Except.ok d =>
        if !d.retryTruthy then
          Except.ok { d with max_retry_limit := some 1 }
        else if d.retryTruthy && (d.max_retry_limit.getD 0 > 5) then
          Except.error ValidateError.retryLimitTooHigh
        else
          Except.ok d

end AmazonSPAPISettings

/-! Concrete fixtures used by witnesses and counterexamples. -/

/-- A one-row marketplace lookup table for concrete runs. -/
def testTable : List (String × Util.MarketplaceInfo) :=
  [("US", { region := "us-east-1",
            endpoint := "https://sellingpartnerapi-na.amazon.com",
            marketplace_id := "ATVPDKIKX0DER" })]

/-- A concrete freshly-constructed client instance (no cached token). -/
def testClient : SPAPIInstance :=
  { client_id := "cid", client_secret := "sec", refresh_token := "rt"
    country_code := "US"
    iam_arn := Json.null, aws_access_key := Json.null
    aws_secret_key := Json.null
    region := "us-east-1"
    endpoint := "https://sellingpartnerapi-na.amazon.com"
    marketplace_id := "ATVPDKIKX0DER"
    base_uri := "/"
    _access_token := Json.null }

/-- The same client with the legacy credential triple stored. -/
def testClientLegacy : SPAPIInstance :=
  { testClient with
    iam_arn := Json.str "arn"
    aws_access_key := Json.str "ak"
    aws_secret_key := Json.str "sk" }

/-- A 200 token-endpoint response carrying an access token. -/
def tokenOkResp : HttpResponse :=
  ⟨200, "tok-body", some (Json.obj [("access_token", Json.str "T")])⟩

/-- A 200 token-endpoint response whose JSON body has no access_token
field. -/
def tokenEmptyObjResp : HttpResponse :=
  ⟨200, "empty-body", some (Json.obj [])⟩

/-- A 200 token-endpoint response carrying a different access token. -/
def tokenOkResp2 : HttpResponse :=
  ⟨200, "tok2-body", some (Json.obj [("access_token", Json.str "T2")])⟩

/-- A 401 token-endpoint error response with both error fields. -/
def tokenErrResp : HttpResponse :=
  ⟨401, "err-body",
   some (Json.obj [("error", Json.str "invalid_grant"),
                   ("error_description", Json.str "bad token")])⟩

/-- A 404 resource-endpoint response with body text "not found". -/
def apiNotFoundResp : HttpResponse := ⟨404, "not found", none⟩

/-- A 200 resource-endpoint response with a JSON object body. -/
def apiOkResp : HttpResponse :=
  ⟨200, "ok-body", some (Json.obj [("payload", Json.arr [])])⟩

/-!
## Theorems
-/

/-- C4: when no token is cached and the token endpoint answers HTTP 200 with
a JSON-object body, `get_access_token` extracts the "access_token" field,
caches it on the instance and returns it, in exactly one network call; an
absent field makes the extracted value `Json.null` (Python `None`), still
treated as success. -/
theorem C4_get_access_token_success (self : SPAPIInstance) (resp : HttpResponse)
    (fields : List (String × Json)) (tok : Json)
    (hcache : self._access_token.truthy = false)
    (hstatus : resp.status_code = 200)
    (hbody : resp.jsonBody = some (Json.obj fields))
    (htok : (Json.obj fields).dictGet "access_token" = some tok) :
    (SPAPI.get_access_token self resp).outcome = Except.ok tok ∧
    ((SPAPI.get_access_token self resp).self)._access_token = tok ∧
    (SPAPI.get_access_token self resp).requests.length = 1 := by
  simp [SPAPI.get_access_token, hcache, hstatus, hbody, htok]

/-- Witness for C4 at the 200 response with body holding access_token "T". -/
theorem C4_witness :
    (SPAPI.get_access_token testClient tokenOkResp).outcome =
      Except.ok (Json.str "T") ∧
    ((SPAPI.get_access_token testClient tokenOkResp).self)._access_token =
      Json.str "T" ∧
    (SPAPI.get_access_token testClient tokenOkResp).requests.length = 1 :=
  C4_get_access_token_success testClient tokenOkResp
    [("access_token", Json.str "T")] (Json.str "T") rfl rfl rfl rfl

/-- C3: when no token is cached and the token endpoint answers with any
non-200 status and a JSON-object body, `get_access_token` raises
`SPAPIError` carrying the body's "error" and "error_description" field
values verbatim (`Json.null` when absent), performs exactly one network
call, and leaves the instance — hence the token cache — unchanged. -/
theorem C3_get_access_token_error (self : SPAPIInstance) (resp : HttpResponse)
    (fields : List (String × Json)) (e d : Json)
    (hcache : self._access_token.truthy = false)
    (hstatus : resp.status_code ≠ 200)
    (hbody : resp.jsonBody = some (Json.obj fields))
    (he : (Json.obj fields).dictGet "error" = some e)
    (hd : (Json.obj fields).dictGet "error_description" = some d) :
    (SPAPI.get_access_token self resp).outcome =
      Except.error (PyError.SPAPIError e d) ∧
    (SPAPI.get_access_token self resp).self = self ∧
    (SPAPI.get_access_token self resp).requests.length = 1 := by
  simp [SPAPI.get_access_token, hcache, hbody, he, hd, hstatus]

/-- Witness for C3 at the 401 invalid_grant response. -/
theorem C3_witness :
    (SPAPI.get_access_token testClient tokenErrResp).outcome =
      Except.error (PyError.SPAPIError (Json.str "invalid_grant")
        (Json.str "bad token")) ∧
    (SPAPI.get_access_token testClient tokenErrResp).self = testClient ∧
    (SPAPI.get_access_token testClient tokenErrResp).requests.length = 1 :=
  C3_get_access_token_error testClient tokenErrResp
    [("error", Json.str "invalid_grant"),
     ("error_description", Json.str "bad token")]
    (Json.str "invalid_grant") (Json.str "bad token")
    rfl (by decide) rfl rfl rfl

/-- C7: `get_headers` always invokes `get_access_token` (it emits exactly the
requests of that call); on success it returns exactly the three headers —
the access token, the fixed User-Agent and Content-Type application/json —
and nothing else; any token-acquisition failure propagates unchanged. -/
theorem C7_get_headers (self : SPAPIInstance) (resp : HttpResponse) :
    (∀ tok, (SPAPI.get_access_token self resp).outcome = Except.ok tok →
      (SPAPI.get_headers self resp).outcome = Except.ok
        [("x-amz-access-token", tok),
         ("User-Agent",
          Json.str "python-amazon-mws/0.0.1 (Language=Python)"),
         ("Content-Type", Json.str "application/json")]) ∧
    (∀ e, (SPAPI.get_access_token self resp).outcome = Except.error e →
      (SPAPI.get_headers self resp).outcome = Except.error e) ∧
    (SPAPI.get_headers self resp).requests =
      (SPAPI.get_access_token self resp).requests := by
  rcases h : SPAPI.get_access_token self resp with ⟨out, s', reqs⟩
  cases out <;> simp [SPAPI.get_headers, h]

/-- Witness for C7: the three headers produced after a successful token
call on the test client. -/
theorem C7_witness :
    (SPAPI.get_headers testClient tokenOkResp).outcome = Except.ok
      [("x-amz-access-token", Json.str "T"),
       ("User-Agent", Json.str "python-amazon-mws/0.0.1 (Language=Python)"),
       ("Content-Type", Json.str "application/json")] :=
  (C7_get_headers testClient tokenOkResp).1 (Json.str "T") rfl

/-- C2: once headers are obtained, `make_request` sends exactly one resource
request (no retry); a status ≥ 400 raises `SPAPIError` with code
"HTTP <status>" and the raw body text as description, and a status < 400
returns the body parsed as JSON unchanged (no schema validation). -/
theorem C2_make_request_status (self : SPAPIInstance)
    (method suffix : String) (params data : Option (List (String × Json)))
    (tokenResp apiResp : HttpResponse) (hs : List (String × Json))
    (hheaders : (SPAPI.get_headers self tokenResp).outcome = Except.ok hs) :
    (400 ≤ apiResp.status_code →
      (SPAPI.make_request self method suffix params data tokenResp
        apiResp).outcome =
        Except.error (PyError.SPAPIError
          (Json.str ("HTTP " ++ toString apiResp.status_code))
          (Json.str apiResp.text))) ∧
    (∀ j, apiResp.status_code < 400 → apiResp.jsonBody = some j →
      (SPAPI.make_request self method suffix params data tokenResp
        apiResp).outcome = Except.ok j) ∧
    (SPAPI.make_request self method suffix params data tokenResp
      apiResp).requests.length =
      (SPAPI.get_headers self tokenResp).requests.length + 1 := by
  rcases h : SPAPI.get_headers self tokenResp with ⟨out, s', reqs⟩
  rw [h] at hheaders
  simp only [] at hheaders
  subst hheaders
  refine ⟨?_, ?_, ?_⟩
  · intro h400
    simp [SPAPI.make_request, h, h400]
  · intro j hlt hbody
    have hnot : ¬ (400 ≤ apiResp.status_code) := by omega
    simp [SPAPI.make_request, h, hnot, hbody]
  · by_cases h4 : 400 ≤ apiResp.status_code
    · simp [SPAPI.make_request, h, h4]
    · cases hb : apiResp.jsonBody <;>
        simp [SPAPI.make_request, h, h4, hb]

/-- Witness for C2: a 404 response with body "not found" raises
SPAPIError with code "HTTP 404" and description "not found". -/
theorem C2_witness :
    (SPAPI.make_request testClient "GET" "" none none tokenOkResp
      apiNotFoundResp).outcome =
      Except.error (PyError.SPAPIError (Json.str "HTTP 404")
        (Json.str "not found")) :=
  (C2_make_request_status testClient "GET" "" none none tokenOkResp
    apiNotFoundResp
    [("x-amz-access-token", Json.str "T"),
     ("User-Agent", Json.str "python-amazon-mws/0.0.1 (Language=Python)"),
     ("Content-Type", Json.str "application/json")] rfl).1 (by decide)

/-- C5: the resource request of `make_request` targets exactly
`endpoint ++ BASE_URI ++ append_to_base_uri`; the per-subtype base URIs are
"/finances/v0/", "/orders/v0/orders" and "/catalog/v0", so Orders with an
empty suffix hits `.../orders/v0/orders` and CatalogItems with suffix
"/ASIN123" hits `.../catalog/v0/ASIN123`. -/
theorem C5_make_request_url :
    Finances.BASE_URI = "/finances/v0/" ∧
    Orders.BASE_URI = "/orders/v0/orders" ∧
    CatalogItems.BASE_URI = "/catalog/v0" ∧
    (∀ (self : SPAPIInstance) (method suffix : String)
       (params data : Option (List (String × Json)))
       (tokenResp apiResp : HttpResponse) (hs : List (String × Json)),
      (SPAPI.get_headers self tokenResp).outcome = Except.ok hs →
      (SPAPI.make_request self method suffix params data tokenResp
        apiResp).requests =
        (SPAPI.get_headers self tokenResp).requests ++
        [{ method := method
           url := self.endpoint ++ self.base_uri ++ suffix
           params := params.map Util.remove_empty
           formData := none
           jsonData := data.map Util.remove_empty
           headers := hs }]) ∧
    (∀ endpoint : String,
      endpoint ++ Orders.BASE_URI ++ "" = endpoint ++ "/orders/v0/orders" ∧
      endpoint ++ CatalogItems.BASE_URI ++ "/ASIN123" =
        endpoint ++ "/catalog/v0/ASIN123") := by
  refine ⟨rfl, rfl, rfl, ?_, ?_⟩
  · intro self method suffix params data tokenResp apiResp hs hheaders
    rcases h : SPAPI.get_headers self tokenResp with ⟨out, s', reqs⟩
    rw [h] at hheaders
    simp only [] at hheaders
    subst hheaders
    by_cases h4 : 400 ≤ apiResp.status_code
    · simp [SPAPI.make_request, h, h4]
    · cases hb : apiResp.jsonBody <;>
        simp [SPAPI.make_request, h, h4, hb]
  · intro endpoint
    constructor
    · simp [Orders.BASE_URI]
    · rw [CatalogItems.BASE_URI, String.append_assoc]
      rfl

/-- Witness for C5: an Orders client with empty suffix requests
`https://sellingpartnerapi-na.amazon.com/orders/v0/orders`. -/
theorem C5_witness :
    (SPAPI.make_request { testClient with base_uri := Orders.BASE_URI }
      "GET" "" none none tokenOkResp apiOkResp).requests =
      (SPAPI.get_headers { testClient with base_uri := Orders.BASE_URI }
        tokenOkResp).requests ++
      [{ method := "GET"
         url := "https://sellingpartnerapi-na.amazon.com" ++
           "/orders/v0/orders" ++ ""
         params := none
         formData := none
         jsonData := none
         headers :=
           [("x-amz-access-token", Json.str "T"),
            ("User-Agent",
             Json.str "python-amazon-mws/0.0.1 (Language=Python)"),
            ("Content-Type", Json.str "application/json")] }] :=
  C5_make_request_url.2.2.2.1 { testClient with base_uri := Orders.BASE_URI }
    "GET" "" none none tokenOkResp apiOkResp _ rfl

/-- C6: `make_request` strips empty/absent-valued entries from both the
query-parameter mapping and the JSON-body mapping before sending; in
particular a mapping holding entries "a" ↦ "" and "b" ↦ None and "c" ↦ "x"
is sent as the single entry "c" ↦ "x". -/
theorem C6_make_request_strip :
    Util.remove_empty
      [("a", Json.str ""), ("b", Json.null), ("c", Json.str "x")] =
      [("c", Json.str "x")] ∧
    ∀ (self : SPAPIInstance) (method suffix : String)
      (params data : Option (List (String × Json)))
      (tokenResp apiResp : HttpResponse) (hs : List (String × Json)),
      (SPAPI.get_headers self tokenResp).outcome = Except.ok hs →
      ∃ r, (SPAPI.make_request self method suffix params data tokenResp
              apiResp).requests.getLast? = some r ∧
        r.params = params.map Util.remove_empty ∧
        r.jsonData = data.map Util.remove_empty := by
  refine ⟨rfl, ?_⟩
  intro self method suffix params data tokenResp apiResp hs hheaders
  rcases h : SPAPI.get_headers self tokenResp with ⟨out, s', reqs⟩
  rw [h] at hheaders
  simp only [] at hheaders
  subst hheaders
  refine ⟨{ method := method, url := self.endpoint ++ self.base_uri ++ suffix,
            params := params.map Util.remove_empty, formData := none,
            jsonData := data.map Util.remove_empty, headers := hs },
          ?_, rfl, rfl⟩
  by_cases h4 : 400 ≤ apiResp.status_code
  · simp [SPAPI.make_request, h, h4]
  · cases hb : apiResp.jsonBody <;>
      simp [SPAPI.make_request, h, h4, hb]

/-- Witness for C6: the example mapping is stripped to its "c" entry in the
sent request, for both query parameters and JSON body. -/
theorem C6_witness :
    ∃ r, (SPAPI.make_request testClient "POST" "/x"
            (some [("a", Json.str ""), ("b", Json.null), ("c", Json.str "x")])
            (some [("a", Json.str ""), ("b", Json.null), ("c", Json.str "x")])
            tokenOkResp apiOkResp).requests.getLast? = some r ∧
      r.params = (some [("a", Json.str ""), ("b", Json.null),
        ("c", Json.str "x")]).map Util.remove_empty ∧
      r.jsonData = (some [("a", Json.str ""), ("b", Json.null),
        ("c", Json.str "x")]).map Util.remove_empty :=
  C6_make_request_strip.2 testClient "POST" "/x"
    (some [("a", Json.str ""), ("b", Json.null), ("c", Json.str "x")])
    (some [("a", Json.str ""), ("b", Json.null), ("c", Json.str "x")])
    tokenOkResp apiOkResp
    [("x-amz-access-token", Json.str "T"),
     ("User-Agent", Json.str "python-amazon-mws/0.0.1 (Language=Python)"),
     ("Content-Type", Json.str "application/json")] rfl

/-- Helper: a successful `get_access_token` leaves exactly the returned
value in the cache (either it was already cached, or it was just stored). -/
theorem get_access_token_ok_cache (self : SPAPIInstance) (resp : HttpResponse)
    (tok : Json)
    (h : (SPAPI.get_access_token self resp).outcome = Except.ok tok) :
    ((SPAPI.get_access_token self resp).self)._access_token = tok := by
  by_cases hc : self._access_token.truthy
  · simp [SPAPI.get_access_token, hc] at h ⊢
    exact h
  · rcases hj : resp.jsonBody with _ | result
    · simp [SPAPI.get_access_token, hc, hj] at h
    · by_cases hs : resp.status_code = 200
      · rcases hg : result.dictGet "access_token" with _ | t
        · simp [SPAPI.get_access_token, hc, hj, hs, hg] at h
        · simp [SPAPI.get_access_token, hc, hj, hs, hg] at h ⊢
          exact h
      · rcases he : result.dictGet "error" with _ | e <;>
          rcases hd : result.dictGet "error_description" with _ | d <;>
          simp [SPAPI.get_access_token, hc, hj, hs, he, hd] at h

/-- Counterexample to C1: on the test client, a first `get_access_token`
call answered HTTP 200 with body `\x7b\x7d` succeeds and returns `Json.null`
(the absent access_token field), but a second call performs another network
request and returns a different value. -/
theorem C1_counterexample :
    (SPAPI.get_access_token testClient tokenEmptyObjResp).outcome =
      Except.ok Json.null ∧
    (SPAPI.get_access_token
      (SPAPI.get_access_token testClient tokenEmptyObjResp).self
      tokenOkResp2).requests.length = 1 ∧
    (SPAPI.get_access_token
      (SPAPI.get_access_token testClient tokenEmptyObjResp).self
      tokenOkResp2).outcome = Except.ok (Json.str "T2") ∧
    Json.str "T2" ≠ Json.null :=
  ⟨rfl, rfl, rfl, fun h => Json.noConfusion h⟩

/-- C1 amended: if the first `get_access_token` call succeeds AND the
returned token value is truthy (in particular a non-empty token string),
then a second call on the same instance returns the same value and performs
no network call; with an HTTP 200 response whose body lacks (or holds a
falsy) access_token, the first call still succeeds but caches a falsy value
and the second call does contact the network again. -/
theorem C1_token_caching (self : SPAPIInstance) (resp1 resp2 : HttpResponse)
    (tok : Json)
    (h1 : (SPAPI.get_access_token self resp1).outcome = Except.ok tok)
    (htruthy : tok.truthy = true) :
    (SPAPI.get_access_token (SPAPI.get_access_token self resp1).self
      resp2).outcome = Except.ok tok ∧
    (SPAPI.get_access_token (SPAPI.get_access_token self resp1).self
      resp2).requests = [] := by
  have hcache := get_access_token_ok_cache self resp1 tok h1
  generalize hge : (SPAPI.get_access_token self resp1).self = s1 at hcache ⊢
  constructor <;> simp [SPAPI.get_access_token, hcache, htruthy]

/-- Witness for C1 amended: after a 200 response with access_token "T",
the second call returns "T" with no network request. -/
theorem C1_witness :
    (SPAPI.get_access_token (SPAPI.get_access_token testClient tokenOkResp).self
      tokenOkResp2).outcome = Except.ok (Json.str "T") ∧
    (SPAPI.get_access_token (SPAPI.get_access_token testClient tokenOkResp).self
      tokenOkResp2).requests = [] :=
  C1_token_caching testClient tokenOkResp tokenOkResp2 (Json.str "T") rfl rfl

/-- C8: construction emits no HTTP request; when the lookup table knows the
country code it yields exactly the resolved marketplace triple with an
absent cached token, and when it does not, construction fails with the
lookup's own error. -/
theorem C8_construction (table : List (String × Util.MarketplaceInfo))
    (client_id client_secret refresh_token country_code : String)
    (iam_arn aws_access_key aws_secret_key : Json) (base_uri : String) :
    (SPAPI.init table client_id client_secret refresh_token country_code
      iam_arn aws_access_key aws_secret_key base_uri).2 = [] ∧
    (∀ mi, Util.get_marketplace_data table country_code = Except.ok mi →
      ∃ inst,
        (SPAPI.init table client_id client_secret refresh_token country_code
          iam_arn aws_access_key aws_secret_key base_uri).1 =
          Except.ok inst ∧
        inst.region = mi.region ∧ inst.endpoint = mi.endpoint ∧
        inst.marketplace_id = mi.marketplace_id ∧
        inst.country_code = country_code ∧
        inst._access_token = Json.null) ∧
    (∀ e, Util.get_marketplace_data table country_code = Except.error e →
      (SPAPI.init table client_id client_secret refresh_token country_code
        iam_arn aws_access_key aws_secret_key base_uri).1 =
        Except.error e) := by
  refine ⟨?_, ?_, ?_⟩
  · cases hm : Util.get_marketplace_data table country_code <;>
      simp [SPAPI.init, hm]
  · intro mi hmi
    refine ⟨{ client_id := client_id, client_secret := client_secret,
              refresh_token := refresh_token, country_code := country_code,
              iam_arn := if iam_arn.truthy && aws_access_key.truthy &&
                  aws_secret_key.truthy then iam_arn else Json.null,
              aws_access_key := if iam_arn.truthy && aws_access_key.truthy &&
                  aws_secret_key.truthy then aws_access_key else Json.null,
              aws_secret_key := if iam_arn.truthy && aws_access_key.truthy &&
                  aws_secret_key.truthy then aws_secret_key else Json.null,
              region := mi.region, endpoint := mi.endpoint,
              marketplace_id := mi.marketplace_id, base_uri := base_uri,
              _access_token := Json.null }, ?_, rfl, rfl, rfl, rfl, rfl⟩
    simp [SPAPI.init, hmi]
  · intro e he
    simp [SPAPI.init, he]

/-- Witness for C8 on the one-row test table: construction with "US"
emits no request and resolves the US marketplace triple. -/
theorem C8_witness :
    (SPAPI.init testTable "cid" "sec" "rt" "US" Json.null Json.null
      Json.null "/").2 = [] ∧
    ∃ inst,
      (SPAPI.init testTable "cid" "sec" "rt" "US" Json.null Json.null
        Json.null "/").1 = Except.ok inst ∧
      inst.region = "us-east-1" ∧
      inst.endpoint = "https://sellingpartnerapi-na.amazon.com" ∧
      inst.marketplace_id = "ATVPDKIKX0DER" ∧
      inst.country_code = "US" ∧
      inst._access_token = Json.null :=
  ⟨(C8_construction testTable "cid" "sec" "rt" "US" Json.null Json.null
      Json.null "/").1,
   (C8_construction testTable "cid" "sec" "rt" "US" Json.null Json.null
      Json.null "/").2.1
     ⟨"us-east-1", "https://sellingpartnerapi-na.amazon.com",
      "ATVPDKIKX0DER"⟩ rfl⟩

/-- Helper: `get_access_token` depends only on the non-legacy fields:
instances with equal cores give equal outcomes and requests, and their
updated instances again have equal cores. -/
theorem get_access_token_core (s1 s2 : SPAPIInstance) (resp : HttpResponse)
    (h : s1.core = s2.core) :
    (SPAPI.get_access_token s1 resp).outcome =
      (SPAPI.get_access_token s2 resp).outcome ∧
    (SPAPI.get_access_token s1 resp).requests =
      (SPAPI.get_access_token s2 resp).requests ∧
    ((SPAPI.get_access_token s1 resp).self).core =
      ((SPAPI.get_access_token s2 resp).self).core := by
  obtain ⟨c1, cs1, rt1, cc1, i1, k1, sk1, r1, e1, m1, b1, t1⟩ := s1
  obtain ⟨c2, cs2, rt2, cc2, i2, k2, sk2, r2, e2, m2, b2, t2⟩ := s2
  simp only [SPAPIInstance.core, SPAPICore.mk.injEq] at h
  obtain ⟨h1, h2, h3, h4, h5, h6, h7, h8, h9⟩ := h
  subst h1 h2 h3 h4 h5 h6 h7 h8 h9
  by_cases hc : t1.truthy
  · simp [SPAPI.get_access_token, SPAPIInstance.core, hc]
  · rcases hj : resp.jsonBody with _ | result
    · simp [SPAPI.get_access_token, SPAPIInstance.core, hc, hj]
    · by_cases hs : resp.status_code = 200
      · rcases hg : result.dictGet "access_token" with _ | t <;>
          simp [SPAPI.get_access_token, SPAPIInstance.core, hc, hj, hs, hg]
      · rcases he : result.dictGet "error" with _ | e <;>
          rcases hd : result.dictGet "error_description" with _ | d <;>
          simp [SPAPI.get_access_token, SPAPIInstance.core, hc, hj, hs, he,
            hd]

/-- Helper: `get_headers` depends only on the non-legacy fields. -/
theorem get_headers_core (s1 s2 : SPAPIInstance) (resp : HttpResponse)
    (h : s1.core = s2.core) :
    (SPAPI.get_headers s1 resp).outcome =
      (SPAPI.get_headers s2 resp).outcome ∧
    (SPAPI.get_headers s1 resp).requests =
      (SPAPI.get_headers s2 resp).requests ∧
    ((SPAPI.get_headers s1 resp).self).core =
      ((SPAPI.get_headers s2 resp).self).core := by
  obtain ⟨ho, hr, hs⟩ := get_access_token_core s1 s2 resp h
  rcases h1 : SPAPI.get_access_token s1 resp with ⟨o1, a1, q1⟩
  rcases h2 : SPAPI.get_access_token s2 resp with ⟨o2, a2, q2⟩
  rw [h1, h2] at ho hr hs
  simp only [] at ho hr hs
  subst ho hr
  cases o1 <;> simp [SPAPI.get_headers, h1, h2, hs]

/-- Helper: `make_request` depends only on the non-legacy fields. -/
theorem make_request_core (s1 s2 : SPAPIInstance) (method suffix : String)
    (params data : Option (List (String × Json)))
    (tokenResp apiResp : HttpResponse)
    (h : s1.core = s2.core) :
    (SPAPI.make_request s1 method suffix params data tokenResp
      apiResp).outcome =
      (SPAPI.make_request s2 method suffix params data tokenResp
        apiResp).outcome ∧
    (SPAPI.make_request s1 method suffix params data tokenResp
      apiResp).requests =
      (SPAPI.make_request s2 method suffix params data tokenResp
        apiResp).requests := by
  have hep : s1.endpoint = s2.endpoint := congrArg SPAPICore.endpoint h
  have hbu : s1.base_uri = s2.base_uri := congrArg SPAPICore.base_uri h
  obtain ⟨ho, hr, hs⟩ := get_headers_core s1 s2 tokenResp h
  rcases h1 : SPAPI.get_headers s1 tokenResp with ⟨o1, a1, q1⟩
  rcases h2 : SPAPI.get_headers s2 tokenResp with ⟨o2, a2, q2⟩
  rw [h1, h2] at ho hr hs
  simp only [] at ho hr hs
  subst ho hr
  cases o1 with
  | error e => simp [SPAPI.make_request, h1, h2]
  | ok hdrs =>
      simp only [SPAPI.make_request, h1, h2, hep, hbu]
      refine ⟨?_, ?_⟩ <;>
        (split
         · rfl
         · cases apiResp.jsonBody <;> rfl)

/-- C9: two clients constructed with the same OAuth credentials and country
but different legacy triples (iam_arn/aws_access_key/aws_secret_key) behave
identically: `get_access_token`, `get_headers` and `make_request` produce
the same outcomes and emit the same requests. -/
theorem C9_legacy_inert (table : List (String × Util.MarketplaceInfo))
    (client_id client_secret refresh_token country_code : String)
    (a1 k1 s1 a2 k2 s2 : Json) (base_uri : String)
    (i1 i2 : SPAPIInstance)
    (h1 : (SPAPI.init table client_id client_secret refresh_token
      country_code a1 k1 s1 base_uri).1 = Except.ok i1)
    (h2 : (SPAPI.init table client_id client_secret refresh_token
      country_code a2 k2 s2 base_uri).1 = Except.ok i2)
    (resp tokenResp apiResp : HttpResponse) (method suffix : String)
    (params data : Option (List (String × Json))) :
    (SPAPI.get_access_token i1 resp).outcome =
      (SPAPI.get_access_token i2 resp).outcome ∧
    (SPAPI.get_access_token i1 resp).requests =
      (SPAPI.get_access_token i2 resp).requests ∧
    (SPAPI.get_headers i1 resp).outcome =
      (SPAPI.get_headers i2 resp).outcome ∧
    (SPAPI.get_headers i1 resp).requests =
      (SPAPI.get_headers i2 resp).requests ∧
    (SPAPI.make_request i1 method suffix params data tokenResp
      apiResp).outcome =
      (SPAPI.make_request i2 method suffix params data tokenResp
        apiResp).outcome ∧
    (SPAPI.make_request i1 method suffix params data tokenResp
      apiResp).requests =
      (SPAPI.make_request i2 method suffix params data tokenResp
        apiResp).requests := by
  have hcore : i1.core = i2.core := by
    cases hm : Util.get_marketplace_data table country_code <;>
      simp [SPAPI.init, hm] at h1 h2
    subst h1 h2
    simp [SPAPIInstance.core]
  exact ⟨(get_access_token_core i1 i2 resp hcore).1,
         (get_access_token_core i1 i2 resp hcore).2.1,
         (get_headers_core i1 i2 resp hcore).1,
         (get_headers_core i1 i2 resp hcore).2.1,
         (make_request_core i1 i2 method suffix params data tokenResp apiResp
           hcore).1,
         (make_request_core i1 i2 method suffix params data tokenResp apiResp
           hcore).2⟩

/-- Witness for C9: the test client without and with a stored legacy triple
behave identically on concrete calls. -/
theorem C9_witness :
    (SPAPI.get_access_token testClient tokenOkResp).outcome =
      (SPAPI.get_access_token testClientLegacy tokenOkResp).outcome ∧
    (SPAPI.get_access_token testClient tokenOkResp).requests =
      (SPAPI.get_access_token testClientLegacy tokenOkResp).requests ∧
    (SPAPI.get_headers testClient tokenOkResp).outcome =
      (SPAPI.get_headers testClientLegacy tokenOkResp).outcome ∧
    (SPAPI.get_headers testClient tokenOkResp).requests =
      (SPAPI.get_headers testClientLegacy tokenOkResp).requests ∧
    (SPAPI.make_request testClient "GET" "" none none tokenOkResp
      apiOkResp).outcome =
      (SPAPI.make_request testClientLegacy "GET" "" none none tokenOkResp
        apiOkResp).outcome ∧
    (SPAPI.make_request testClient "GET" "" none none tokenOkResp
      apiOkResp).requests =
      (SPAPI.make_request testClientLegacy "GET" "" none none tokenOkResp
        apiOkResp).requests :=
  C9_legacy_inert testTable "cid" "sec" "rt" "US" Json.null Json.null
    Json.null (Json.str "arn") (Json.str "ak") (Json.str "sk") "/"
    testClient testClientLegacy rfl rfl tokenOkResp tokenOkResp apiOkResp
    "GET" "" none none

/-- Helper: disabling sync does not change the truthiness of the retry
limit field. -/
theorem retryTruthy_enable_sync (doc : SettingsDoc) :
    ({ doc with enable_sync := 0 } : SettingsDoc).retryTruthy =
      doc.retryTruthy := rfl

/-- Helper: when `validate` returns, either the retry limit was falsy and is
now 1, or it was truthy, is unchanged, and did not exceed 5. -/
theorem validate_ok_retry (p c : Bool) (doc d : SettingsDoc)
    (h : AmazonSPAPISettings.validate p c doc = Except.ok d) :
    (doc.retryTruthy = false ∧ d.max_retry_limit = some 1) ∨
    (doc.retryTruthy = true ∧ d.max_retry_limit = doc.max_retry_limit ∧
      ¬ (doc.max_retry_limit.getD 0 > 5)) := by
  cases p with
  | false => simp [AmazonSPAPISettings.validate] at h
  | true =>
    by_cases ha : doc.is_active = 1
    · cases c with
      | false => simp [AmazonSPAPISettings.validate, ha] at h
      | true =>
        cases ht : doc.retryTruthy with
        | false =>
          simp [AmazonSPAPISettings.validate, ha, ht] at h
          subst h
          exact Or.inl ⟨rfl, rfl⟩
        | true =>
          by_cases h5 : doc.max_retry_limit.getD 0 > 5
          · simp [AmazonSPAPISettings.validate, ha, ht, h5] at h
          · simp [AmazonSPAPISettings.validate, ha, ht, h5] at h
            subst h
            exact Or.inr ⟨rfl, rfl, h5⟩
    · cases ht : doc.retryTruthy with
      | false =>
        simp [AmazonSPAPISettings.validate, ha, retryTruthy_enable_sync,
          ht] at h
        subst h
        exact Or.inl ⟨rfl, rfl⟩
      | true =>
        by_cases h5 : doc.max_retry_limit.getD 0 > 5
        · simp [AmazonSPAPISettings.validate, ha, retryTruthy_enable_sync,
            ht, h5] at h
        · simp [AmazonSPAPISettings.validate, ha, retryTruthy_enable_sync,
            ht, h5] at h
          subst h
          exact Or.inr ⟨rfl, rfl, h5⟩

/-- Counterexample to C10: a negative stored retry limit (here -2) is
neither reset nor rejected — `validate` returns with max_retry_limit -2,
outside 1..5. -/
theorem C10_counterexample :
    AmazonSPAPISettings.validate true true
      { is_active := 0, enable_sync := 1, max_retry_limit := some (-2) } =
      Except.ok { is_active := 0, enable_sync := 0,
                  max_retry_limit := some (-2) } ∧
    ¬ (1 ≤ (-2 : Int)) :=
  ⟨rfl, by decide⟩

/-- C10 amended: restricted to nonnegative stored values, a returning
`validate` leaves max_retry_limit in 1..5; unconditionally, a falsy (unset
or zero) limit is set to 1, and a limit above 5 makes `validate` raise.
(A negative stored limit, however, passes through unchanged.) -/
theorem C10_retry_limit (p c : Bool) (doc : SettingsDoc) :
    ((∀ n, doc.max_retry_limit = some n → 0 ≤ n) →
      ∀ d, AmazonSPAPISettings.validate p c doc = Except.ok d →
        ∃ n, d.max_retry_limit = some n ∧ 1 ≤ n ∧ n ≤ 5) ∧
    (∀ d, AmazonSPAPISettings.validate p c doc = Except.ok d →
      doc.retryTruthy = false → d.max_retry_limit = some 1) ∧
    (∀ n, doc.max_retry_limit = some n → 5 < n →
      ∀ d, AmazonSPAPISettings.validate p c doc ≠ Except.ok d) := by
  refine ⟨?_, ?_, ?_⟩
  · intro hnn d h
    rcases validate_ok_retry p c doc d h with ⟨ht, hd⟩ | ⟨ht, hd, h5⟩
    · exact ⟨1, hd, le_refl 1, by norm_num⟩
    · rcases hm : doc.max_retry_limit with _ | n
      · rw [SettingsDoc.retryTruthy, hm] at ht
        simp at ht
      · have h0 := hnn n hm
        have hne : (n != 0) = true := by
          rw [SettingsDoc.retryTruthy, hm] at ht
          exact ht
        have hle : ¬ (n > 5) := by
          rw [hm] at h5
          simpa using h5
        refine ⟨n, by rw [hd, hm], ?_, by omega⟩
        have : n ≠ 0 := by simpa using hne
        omega
  · intro d h ht
    rcases validate_ok_retry p c doc d h with ⟨_, hd⟩ | ⟨ht', _, _⟩
    · exact hd
    · rw [ht] at ht'
      exact absurd ht' (by simp)
  · intro n hm h5 d h
    rcases validate_ok_retry p c doc d h with ⟨ht, _⟩ | ⟨_, _, h5'⟩
    · rw [SettingsDoc.retryTruthy, hm] at ht
      have : n = 0 := by simpa using ht
      omega
    · rw [hm] at h5'
      exact absurd (by simpa using h5) h5'

/-- Witness for C10 amended: a stored limit of 7 makes `validate` raise
rather than return. -/
theorem C10_witness :
    AmazonSPAPISettings.validate true true
      { is_active := 0, enable_sync := 1, max_retry_limit := some 7 } ≠
      Except.ok { is_active := 0, enable_sync := 0,
                  max_retry_limit := some 7 } :=
  (C10_retry_limit true true
    { is_active := 0, enable_sync := 1, max_retry_limit := some 7 }).2.2
    7 rfl (by decide)
    { is_active := 0, enable_sync := 0, max_retry_limit := some 7 }

end AmazonSPAPI
